import Mathlib

/-!
Verification of the `memotyou` notepad application (`src/script.js`).

The program is a browser notepad: a storage access layer wrapping
`localStorage` calls that may throw, and an editor state controller that
reconciles input events, save/auto-save/load operations and storage
outcomes into a displayed status line plus a boolean storage-degraded
latch (`storageWarningIssued`).

The embedding is shallow and functional.  The persistent key-value store
is an association list; whether an underlying `localStorage` call throws
is supplied by an explicit oracle argument (`Option StorageError`,
`none` = the call succeeds), which models the external nondeterminism of
the browser storage.  DOM effects (status line, char count, downloads,
confirmation prompts, focus) are fields of the controller state.
-/

namespace Memotyou

/-- A thrown storage error.  `isDOMException` records whether the thrown
value is a `DOMException` (the only property `isStorageAccessError`
inspects). -/
structure StorageError where
  isDOMException : Bool
deriving Repr, DecidableEq

/-- Embeds `isStorageAccessError(error)` from `src/script.js`: true when the
error is a `DOMException`. -/
def isStorageAccessError (e : StorageError) : Bool :=
  e.isDOMException

/-- The browser key-value store (`localStorage`) as an association list. -/
abbrev Store := List (String × String)

/-- Embeds `localStorage.getItem`: the value stored under `key`, if any. -/
def storeGet : Store → String → Option String
  | [], _ => none
  | (k, v) :: rest, key => if k = key then some v else storeGet rest key

/-- Embeds `localStorage.setItem`: store `value` under `key`.  The new binding
is prepended and shadows any older one, since `storeGet` returns the
first match. -/
def storeSet (s : Store) (key value : String) : Store :=
  (key, value) :: s

/-- JS `String.prototype.trim`, modelled over the character list:
removes leading and trailing whitespace.  (Lean's own `String.trim` is
not kernel-reducible, so the builtin is embedded directly.) -/
def jsTrim (s : String) : String :=
  String.mk (((s.data.dropWhile Char.isWhitespace).reverse.dropWhile
    Char.isWhitespace).reverse)

/-- Result shape of `safeSetItem`: `{ success }` or `{ success, error }`. -/
structure SetResult where
  success : Bool
  error : Option StorageError
deriving Repr, DecidableEq

/-- Result shape of `safeGetItem`: `{ success, value }` or
`{ success, value, error }`.  `value` is `none` when the JS value is
`null`. -/
structure GetResult where
  success : Bool
  value : Option String
  error : Option StorageError
deriving Repr, DecidableEq

/-- The raw `localStorage.setItem` call: throws when the oracle says so,
otherwise updates the store. -/
def rawSetItem (store : Store) (key value : String)
    (oracle : Option StorageError) : Except StorageError Store :=
  match oracle with
  | some e => .error e
  | none => .ok (storeSet store key value)

/-- Embeds `safeSetItem(key, value)` from `src/script.js`: catches any throw of
the underlying store call and converts it to a structured outcome; the
two catch branches (DOMException or not) both return
`{ success: false, error }`. -/
def safeSetItem (store : Store) (key value : String)
    (oracle : Option StorageError) : SetResult × Store :=
  match rawSetItem store key value oracle with
  | .ok s => ({ success := true, error := none }, s)
  | .error e =>
      if isStorageAccessError e then
        ({ success := false, error := some e }, store)
      else
        ({ success := false, error := some e }, store)

/-- The raw `localStorage.getItem` call: throws when the oracle says so,
otherwise returns the stored value (or `null` = `none`). -/
def rawGetItem (store : Store) (key : String)
    (oracle : Option StorageError) : Except StorageError (Option String) :=
  match oracle with
  | some e => .error e
  | none => .ok (storeGet store key)

/-- Embeds `safeGetItem(key, fallback = null)` from `src/script.js`: on success
returns the stored value, or the fallback when the key is absent
(`value !== null ? value : fallback`); on a throw returns
`{ success: false, value: fallback, error }` from either catch branch. -/
def safeGetItem (store : Store) (key : String) (fallback : Option String)
    (oracle : Option StorageError) : GetResult :=
  match rawGetItem store key oracle with
  | .ok v =>
      { success := true, value := if v.isSome then v else fallback,
        error := none }
  | .error e =>
      if isStorageAccessError e then
        { success := false, value := fallback, error := some e }
      else
        { success := false, value := fallback, error := some e }

/-- JS truthiness of a string-or-null value: `null` and `""` are falsy. -/
def jsTruthy : Option String → Bool
  | none => false
  | some s => s ≠ ""

/-- Storage keys from `src/script.js`. -/
def THEME_STORAGE_KEY : String := "notepad_theme"

/-- Key under which the note content is stored. -/
def NOTEPAD_CONTENT_KEY : String := "notepad_content"

/-- Key under which the save timestamp is stored. -/
def NOTEPAD_TIMESTAMP_KEY : String := "notepad_timestamp"

/-- The observable state of the `SimpleNotepad` controller: the textarea
content, the DOM fields it renders into (char count, status text and
class, theme attribute and toggle label), the storage-degraded latch
`storageWarningIssued`, and effect logs for downloads, confirmation
prompts and focus calls. -/
structure NotepadState where
  content : String
  charCount : String
  statusText : String
  statusClass : String
  storageWarningIssued : Bool
  theme : String
  themeToggleText : String
  themeTogglePressed : String
  focused : Bool
  downloads : List String
  prompts : List String
deriving Repr, DecidableEq

/-- Embeds `updateSaveStatus(message, className)`: sets the status line's text
and class. -/
def updateSaveStatus (st : NotepadState) (message className : String) :
    NotepadState :=
  { st with statusText := message, statusClass := className }

/-- Embeds `updateCharCount()`: renders the content length followed by 文字. -/
def updateCharCount (st : NotepadState) : NotepadState :=
  { st with charCount := toString st.content.length ++ "文字" }

/-- Embeds `notifyStorageIssue(message, { force = false })`: shows the message
with style `unsaved` unless the latch is already set and the call is not
forced; always leaves the latch set afterwards. -/
def notifyStorageIssue (st : NotepadState) (message : String)
    (force : Bool) : NotepadState :=
  let st' := if !st.storageWarningIssued || force then
      updateSaveStatus st message "unsaved"
    else st
  { st' with storageWarningIssued := true }

/-- Embeds `clearStorageNotice()`: resets the latch; changes nothing else. -/
def clearStorageNotice (st : NotepadState) : NotepadState :=
  { st with storageWarningIssued := false }

/-- Embeds `downloadAsFile(content)`: logs the exported content. -/
def downloadAsFile (st : NotepadState) (content : String) : NotepadState :=
  { st with downloads := content :: st.downloads }

/-- Embeds `confirm(message)`: logs the prompt and returns the user's answer
(supplied as an oracle). -/
def confirmDialog (st : NotepadState) (message : String) (answer : Bool) :
    NotepadState × Bool :=
  ({ st with prompts := message :: st.prompts }, answer)

/-- The textarea `input` event handler: updates the char count and sets
the status to 未保存 / `unsaved`, unconditionally. -/
def onInput (st : NotepadState) : NotepadState :=
  updateSaveStatus (updateCharCount st) "未保存" "unsaved"

/-- Message shown by `saveNote` when either write fails. -/
def saveBlockedMessage : String :=
  "ブラウザの設定でローカル保存がブロックされているため、ブラウザには保存できません。ファイルはダウンロードされました。"

/-- Message shown by `autoSave` when either write fails. -/
def autoSaveFailedMessage : String :=
  "自動保存に失敗しました（ブラウザの設定でローカル保存がブロックされています）"

/-- Message shown by `loadFromStorage` when the content read fails. -/
def loadFailedMessage : String :=
  "ローカル保存されたメモを読み込めません。ブラウザの設定をご確認ください。"

/-- Embeds `newNote()`: on non-trivial content, asks for confirmation; when
confirmed, clears content, re-renders the char count, sets status to
新規メモ / `unsaved` and focuses; when declined, does nothing further.
On empty (after trim) content, only focuses. -/
def newNote (st : NotepadState) (answer : Bool) : NotepadState :=
  if jsTrim st.content ≠ "" then
    let (st1, ok) := confirmDialog st "現在のメモを破棄して新規作成しますか？" answer
    if ok then
      let st2 := updateCharCount { st1 with content := "" }
      let st3 := updateSaveStatus st2 "新規メモ" "unsaved"
      { st3 with focused := true }
    else st1
  else
    { st with focused := true }

/-- Embeds `saveNote()`: writes content and timestamp (two independent
`safeSetItem` calls), on double success clears the latch and shows
保存済み ({timestamp}), on any failure force-shows the blocked notice,
and always downloads the content as a file.  `timestamp` stands for the
captured `new Date().toLocaleString('ja-JP')`; `o1`, `o2` are the
outcome oracles of the two store calls. -/
def saveNote (st : NotepadState) (store : Store) (timestamp : String)
    (o1 o2 : Option StorageError) : NotepadState × Store :=
  let content := st.content
  let r1 := safeSetItem store NOTEPAD_CONTENT_KEY content o1
  let r2 := safeSetItem r1.2 NOTEPAD_TIMESTAMP_KEY timestamp o2
  let st' :=
    if r1.1.success && r2.1.success then
      updateSaveStatus (clearStorageNotice st)
        ("保存済み (" ++ timestamp ++ ")") "saved"
    else
      notifyStorageIssue st saveBlockedMessage true
  (downloadAsFile st' content, r2.2)

/-- The `reader.onload` callback of `loadNote()`: replaces the content
with the file text, re-renders the char count, and shows
ファイル読み込み完了 / `saved`. -/
def fileLoadComplete (st : NotepadState) (fileText : String) :
    NotepadState :=
  updateSaveStatus (updateCharCount { st with content := fileText })
    "ファイル読み込み完了" "saved"

/-- Embeds `clearNote()`: asks for confirmation; when confirmed, clears content,
re-renders the char count, shows クリア済み / `saved` and focuses. -/
def clearNote (st : NotepadState) (answer : Bool) : NotepadState :=
  let (st1, ok) := confirmDialog st "メモをクリアしますか？" answer
  if ok then
    let st2 := updateCharCount { st1 with content := "" }
    let st3 := updateSaveStatus st2 "クリア済み" "saved"
    { st3 with focused := true }
  else st1

/-- Embeds `loadFromStorage()`: reads the stored content (fallback `''`); on a
failed read, force-shows the load-failure notice and returns.  On
success with truthy content, sets the textarea and reads the timestamp;
when that read succeeds with a truthy value, clears the latch and shows
保存済み ({timestamp}).  In every remaining case clears the latch and
shows the generic 保存済み.  `oc`, `ot` are the outcome oracles of the
two store reads. -/
def loadFromStorage (st : NotepadState) (store : Store)
    (oc ot : Option StorageError) : NotepadState :=
  let contentResult := safeGetItem store NOTEPAD_CONTENT_KEY (some "") oc
  if !contentResult.success then
    notifyStorageIssue st loadFailedMessage true
  else
    let st1 :=
      if jsTruthy contentResult.value then
        { st with content := contentResult.value.getD "" }
      else st
    if jsTruthy contentResult.value then
      let timestampResult := safeGetItem store NOTEPAD_TIMESTAMP_KEY (some "") ot
      if timestampResult.success && jsTruthy timestampResult.value then
        updateSaveStatus (clearStorageNotice st1)
          ("保存済み (" ++ timestampResult.value.getD "" ++ ")") "saved"
      else
        updateSaveStatus (clearStorageNotice st1) "保存済み" "saved"
    else
      updateSaveStatus (clearStorageNotice st1) "保存済み" "saved"

/-- Embeds `autoSave()`: writes content and timestamp; on any failure raises a
non-forced degraded notice and returns; on double success clears the
latch (and changes nothing else). -/
def autoSave (st : NotepadState) (store : Store) (timestamp : String)
    (o1 o2 : Option StorageError) : NotepadState × Store :=
  let content := st.content
  let r1 := safeSetItem store NOTEPAD_CONTENT_KEY content o1
  let r2 := safeSetItem r1.2 NOTEPAD_TIMESTAMP_KEY timestamp o2
  if !r1.1.success || !r2.1.success then
    (notifyStorageIssue st autoSaveFailedMessage false, r2.2)
  else
    (clearStorageNotice st, r2.2)

/-- The 5-second auto-save timer body: calls `autoSave()` only when the
trimmed content is non-empty. -/
def autoSaveTick (st : NotepadState) (store : Store) (timestamp : String)
    (o1 o2 : Option StorageError) : NotepadState × Store :=
  if jsTrim st.content ≠ "" then autoSave st store timestamp o1 o2
  else (st, store)

/-- Embeds `updateThemeToggleLabel(theme)`: renders the toggle's label and
`aria-pressed` attribute from the theme. -/
def updateThemeToggleLabel (st : NotepadState) (theme : String) :
    NotepadState :=
  let isDark := theme = "dark"
  { st with
    themeToggleText := if isDark then "ライトテーマ" else "ダークテーマ",
    themeTogglePressed := if isDark then "true" else "false" }

/-- Embeds `writeStoredTheme(theme)`: persists the theme via `safeSetItem`,
logs a failure, and returns the success flag. -/
def writeStoredTheme (store : Store) (theme : String)
    (oracle : Option StorageError) : Bool × Store :=
  let r := safeSetItem store THEME_STORAGE_KEY theme oracle
  (r.1.success, r.2)

/-- Embeds `readStoredTheme(defaultTheme)`: reads the theme via `safeGetItem`
with the default as fallback and returns the value. -/
def readStoredTheme (store : Store) (defaultTheme : String)
    (oracle : Option StorageError) : Option String :=
  (safeGetItem store THEME_STORAGE_KEY (some defaultTheme) oracle).value

/-- Embeds `toggleTheme()`: normalizes the current theme, flips it, applies it
to the display, persists it, and updates the toggle label. -/
def toggleTheme (st : NotepadState) (store : Store)
    (oracle : Option StorageError) : NotepadState × Store :=
  let currentTheme := if st.theme = "dark" then "dark" else "light"
  let nextTheme := if currentTheme = "light" then "dark" else "light"
  let st1 := { st with theme := nextTheme }
  let w := writeStoredTheme store nextTheme oracle
  (updateThemeToggleLabel st1 nextTheme, w.2)

/-- A concrete controller state used by closed counterexamples and
witnesses. -/
def sampleState : NotepadState :=
  { content := "memo", charCount := "4文字", statusText := "未保存",
    statusClass := "unsaved", storageWarningIssued := false,
    theme := "light", themeToggleText := "ダークテーマ",
    themeTogglePressed := "false", focused := false,
    downloads := [], prompts := [] }

/-- A sample thrown error (a `DOMException`). -/
def sampleError : StorageError := { isDOMException := true }

/-! ## Basic store lemmas -/

theorem storeGet_storeSet_self (s : Store) (k v : String) :
    storeGet (storeSet s k v) k = some v := by
  simp [storeGet, storeSet]

theorem storeGet_storeSet_other (s : Store) (k k' v : String)
    (h : k ≠ k') : storeGet (storeSet s k v) k' = storeGet s k' := by
  simp [storeGet, storeSet, h]

theorem contentKey_ne_timestampKey :
    NOTEPAD_CONTENT_KEY ≠ NOTEPAD_TIMESTAMP_KEY := by
  decide

theorem storeGet_content_after_both (store : Store) (c ts : String) :
    storeGet (storeSet (storeSet store NOTEPAD_CONTENT_KEY c)
      NOTEPAD_TIMESTAMP_KEY ts) NOTEPAD_CONTENT_KEY = some c := by
  rw [storeGet_storeSet_other _ _ _ _ (by decide), storeGet_storeSet_self]

/-! ## Claims -/

/-- C4.  The storage access layer: `safeSetItem` is a total function
(so the underlying throw never reaches the caller) that on any
underlying store failure returns `success = false` with the diagnostic
error attached, and on success returns `success = true`; `safeGetItem`
returns `success = true` with the supplied fallback when the key is
absent, and `success = false` with the fallback and the diagnostic
error when the store call throws. -/
theorem safe_storage_contract (store : Store) (key value : String)
    (fallback : Option String) (e : StorageError) :
    ((safeSetItem store key value (some e)).1.success = false ∧
     (safeSetItem store key value (some e)).1.error = some e ∧
     (safeSetItem store key value (some e)).2 = store) ∧
    ((safeSetItem store key value none).1.success = true ∧
     (safeSetItem store key value none).2 = storeSet store key value) ∧
    (storeGet store key = none →
      (safeGetItem store key fallback none).success = true ∧
      (safeGetItem store key fallback none).value = fallback) ∧
    ((safeGetItem store key fallback (some e)).success = false ∧
     (safeGetItem store key fallback (some e)).value = fallback ∧
     (safeGetItem store key fallback (some e)).error = some e) := by
  refine ⟨?_, ?_, ?_, ?_⟩
  · cases h : isStorageAccessError e <;>
      simp [safeSetItem, rawSetItem, h]
  · simp [safeSetItem, rawSetItem]
  · intro h
    simp [safeGetItem, rawGetItem, h]
  · cases h : isStorageAccessError e <;>
      simp [safeGetItem, rawGetItem, h]

/-- Witness for C4 at concrete inputs: key `"k"` absent from the empty
store, fallback `"fb"`. -/
theorem safe_storage_contract_witness :
    (safeGetItem [] "k" (some "fb") none).success = true ∧
    (safeGetItem [] "k" (some "fb") none).value = some "fb" :=
  (safe_storage_contract [] "k" "v" (some "fb") sampleError).2.2.1 rfl

/-- C5.  `notifyStorageIssue(message, forced)`: when the latch is set
and the call is not forced, the displayed text and style are unchanged
and the latch stays set; otherwise the message is displayed with style
`unsaved` and the latch is set.  Consequently a second non-forced call
after a non-forced notice leaves the text alone, while a forced call
always installs its message. -/
theorem notifyStorageIssue_contract (st : NotepadState) (msg : String)
    (forced : Bool) :
    (st.storageWarningIssued = true → forced = false →
      (notifyStorageIssue st msg forced).statusText = st.statusText ∧
      (notifyStorageIssue st msg forced).statusClass = st.statusClass ∧
      (notifyStorageIssue st msg forced).storageWarningIssued = true) ∧
    (st.storageWarningIssued = false ∨ forced = true →
      (notifyStorageIssue st msg forced).statusText = msg ∧
      (notifyStorageIssue st msg forced).statusClass = "unsaved" ∧
      (notifyStorageIssue st msg forced).storageWarningIssued = true) ∧
    (∀ msg2,
      (notifyStorageIssue (notifyStorageIssue st msg false) msg2
        false).statusText = (notifyStorageIssue st msg false).statusText ∧
      (notifyStorageIssue (notifyStorageIssue st msg false) msg2
        true).statusText = msg2) := by
  cases h : st.storageWarningIssued <;> cases forced <;>
    simp [notifyStorageIssue, updateSaveStatus, h]

/-- Witness for C5: from `sampleState` (latch unset), a first non-forced
notice posts its message, a second non-forced notice leaves it, and a
forced notice replaces it. -/
theorem notifyStorageIssue_contract_witness :
    (notifyStorageIssue sampleState "warnA" false).statusText = "warnA" ∧
    (notifyStorageIssue (notifyStorageIssue sampleState "warnA" false)
      "warnB" false).statusText =
      (notifyStorageIssue sampleState "warnA" false).statusText ∧
    (notifyStorageIssue (notifyStorageIssue sampleState "warnA" false)
      "warnC" true).statusText = "warnC" :=
  ⟨((notifyStorageIssue_contract sampleState "warnA" false).2.1
      (Or.inl rfl)).1,
   ((notifyStorageIssue_contract sampleState "warnA" false).2.2 "warnB").1,
   ((notifyStorageIssue_contract sampleState "warnA" false).2.2 "warnC").2⟩

/-- C8.  The timer-triggered auto-save path: when the trimmed content is
empty, it performs no storage write and leaves the whole controller
state (status, style, latch) and the store unchanged; when the trimmed
content is non-empty it runs `autoSave()`. -/
theorem autoSaveTick_contract (st : NotepadState) (store : Store)
    (ts : String) (o1 o2 : Option StorageError) :
    (jsTrim st.content = "" → autoSaveTick st store ts o1 o2 = (st, store)) ∧
    (jsTrim st.content ≠ "" →
      autoSaveTick st store ts o1 o2 = autoSave st store ts o1 o2) := by
  constructor
  · intro h
    simp [autoSaveTick, h]
  · intro h
    simp [autoSaveTick, h]

/-- Witness for C8 at whitespace-only content: no write, no state
change. -/
theorem autoSaveTick_contract_witness :
    autoSaveTick { sampleState with content := "  " } [] "t" none none =
      ({ sampleState with content := "  " }, []) :=
  (autoSaveTick_contract { sampleState with content := "  " } [] "t"
    none none).1 rfl

/-- C10.  The file-load completion callback: its entire effect is to set
the content to the file text, re-render the character count, and show
ファイル読み込み完了 with style `saved`; every other field — in
particular the storage-degraded latch — retains its prior value, and it
takes no store argument, so it performs no persistent-storage
operation. -/
theorem fileLoadComplete_frame (st : NotepadState) (text : String) :
    fileLoadComplete st text =
      { st with content := text,
                charCount := toString text.length ++ "文字",
                statusText := "ファイル読み込み完了",
                statusClass := "saved" } := by
  simp [fileLoadComplete, updateCharCount, updateSaveStatus]

/-- C7.  `newNote()`: on content that is non-empty after trimming, the
confirmation dialog is shown; if confirmed, the content is cleared, the
char count re-rendered, the status reset to 新規メモ / `unsaved` and the
input focused; if declined, content, status, latch and every other field
are unchanged (only the prompt was shown).  On empty content the input
is only focused: no prompt, no mutation. -/
theorem newNote_contract (st : NotepadState) (answer : Bool) :
    (jsTrim st.content ≠ "" →
      (answer = true → newNote st answer =
        { st with
          content := "", charCount := "0文字",
          statusText := "新規メモ", statusClass := "unsaved",
          focused := true,
          prompts := "現在のメモを破棄して新規作成しますか？" :: st.prompts }) ∧
      (answer = false → newNote st answer =
        { st with
          prompts := "現在のメモを破棄して新規作成しますか？" :: st.prompts })) ∧
    (jsTrim st.content = "" →
      newNote st answer = { st with focused := true }) := by
  constructor
  · intro h
    constructor
    · intro ha
      subst ha
      simp [newNote, h, confirmDialog, updateCharCount, updateSaveStatus]
      rfl
    · intro ha
      subst ha
      simp [newNote, h, confirmDialog]
  · intro h
    simp [newNote, h]

/-- Witness for C7: non-empty content `"memo"` with confirmation
declined leaves the controller state otherwise unchanged. -/
theorem newNote_contract_witness :
    newNote sampleState false =
      { sampleState with
        prompts := "現在のメモを破棄して新規作成しますか？" ::
          sampleState.prompts } :=
  ((newNote_contract sampleState false).1 (by decide)).2 rfl

/-- C2.  `saveNote()`: the file export of the current content always
happens; the two writes are independent, each landing in the store
whenever its own call succeeds, whatever the other's outcome; on double
success the latch is cleared and the status shows 保存済み with exactly
the timestamp that was written; on any failure the forced blocked-save
notice is displayed (style `unsaved`) and the latch set. -/
theorem saveNote_contract (st : NotepadState) (store : Store) (ts : String)
    (o1 o2 : Option StorageError) :
    ((saveNote st store ts o1 o2).1.downloads = st.content :: st.downloads) ∧
    (o1 = none →
      storeGet (saveNote st store ts o1 o2).2 NOTEPAD_CONTENT_KEY =
        some st.content) ∧
    (o2 = none →
      storeGet (saveNote st store ts o1 o2).2 NOTEPAD_TIMESTAMP_KEY =
        some ts) ∧
    (o1 = none → o2 = none →
      (saveNote st store ts o1 o2).1.storageWarningIssued = false ∧
      (saveNote st store ts o1 o2).1.statusText = "保存済み (" ++ ts ++ ")" ∧
      (saveNote st store ts o1 o2).1.statusClass = "saved") ∧
    (o1 ≠ none ∨ o2 ≠ none →
      (saveNote st store ts o1 o2).1.statusText = saveBlockedMessage ∧
      (saveNote st store ts o1 o2).1.statusClass = "unsaved" ∧
      (saveNote st store ts o1 o2).1.storageWarningIssued = true) := by
  cases o1 <;> cases o2 <;>
    cases h : st.storageWarningIssued <;>
      simp [saveNote, safeSetItem, rawSetItem, notifyStorageIssue,
        clearStorageNotice, updateSaveStatus, downloadAsFile, h,
        storeGet_content_after_both, storeGet_storeSet_self]

/-- Witness for C2 at concrete inputs: a fully successful save from
`sampleState` stores content and timestamp, clears the latch, shows the
exact timestamp and downloads the content. -/
theorem saveNote_contract_witness :
    storeGet (saveNote sampleState [] "2026-01-01" none none).2
        NOTEPAD_CONTENT_KEY = some "memo" ∧
    storeGet (saveNote sampleState [] "2026-01-01" none none).2
        NOTEPAD_TIMESTAMP_KEY = some "2026-01-01" ∧
    (saveNote sampleState [] "2026-01-01" none none).1.storageWarningIssued
        = false ∧
    (saveNote sampleState [] "2026-01-01" none none).1.statusText =
        "保存済み (2026-01-01)" ∧
    (saveNote sampleState [] "2026-01-01" none none).1.downloads =
        ["memo"] :=
  ⟨(saveNote_contract sampleState [] "2026-01-01" none none).2.1 rfl,
   (saveNote_contract sampleState [] "2026-01-01" none none).2.2.1 rfl,
   ((saveNote_contract sampleState [] "2026-01-01" none none).2.2.2.1
      rfl rfl).1,
   ((saveNote_contract sampleState [] "2026-01-01" none none).2.2.2.1
      rfl rfl).2.1,
   (saveNote_contract sampleState [] "2026-01-01" none none).1⟩

/-- C3.  `autoSave()`: exactly when both writes succeed, the result is
the input state with the latch cleared and nothing else changed (in
particular the displayed status text is untouched); on any failure the
latch ends set and a non-forced notice is raised, so with the latch
already set the displayed text and style are unchanged, while with no
active notice the auto-save failure message is posted. -/
theorem autoSave_contract (st : NotepadState) (store : Store) (ts : String)
    (o1 o2 : Option StorageError) :
    (o1 = none → o2 = none →
      autoSave st store ts o1 o2 =
        ({ st with storageWarningIssued := false },
         storeSet (storeSet store NOTEPAD_CONTENT_KEY st.content)
           NOTEPAD_TIMESTAMP_KEY ts)) ∧
    (o1 ≠ none ∨ o2 ≠ none →
      (autoSave st store ts o1 o2).1.storageWarningIssued = true ∧
      (st.storageWarningIssued = true →
        (autoSave st store ts o1 o2).1.statusText = st.statusText ∧
        (autoSave st store ts o1 o2).1.statusClass = st.statusClass) ∧
      (st.storageWarningIssued = false →
        (autoSave st store ts o1 o2).1.statusText = autoSaveFailedMessage ∧
        (autoSave st store ts o1 o2).1.statusClass = "unsaved")) := by
  cases o1 <;> cases o2 <;>
    cases h : st.storageWarningIssued <;>
      simp [autoSave, safeSetItem, rawSetItem, notifyStorageIssue,
        clearStorageNotice, updateSaveStatus, h]

/-- Witness for C3: a failed content write from `sampleState` (no active
notice) posts the auto-save failure message and sets the latch, and a
fully successful run only clears the latch. -/
theorem autoSave_contract_witness :
    (autoSave sampleState [] "t" (some sampleError) none).1.statusText =
        autoSaveFailedMessage ∧
    (autoSave sampleState [] "t" (some sampleError)
        none).1.storageWarningIssued = true ∧
    (autoSave sampleState [] "t" none none).1 =
        { sampleState with storageWarningIssued := false } :=
  ⟨(((autoSave_contract sampleState [] "t" (some sampleError) none).2
      (Or.inl (by decide))).2.2 rfl).1,
   ((autoSave_contract sampleState [] "t" (some sampleError) none).2
      (Or.inl (by decide))).1,
   congrArg Prod.fst
     ((autoSave_contract sampleState [] "t" none none).1 rfl rfl)⟩

/-- C6.  `loadFromStorage()` (the storage part of initialization) ends
in exactly one of three states.  (1) If the content read fails, the
forced load-failure notice is shown with style `unsaved`, the latch is
set, the content is untouched, and the result does not depend on the
timestamp-read oracle (no further status computation) — so with the
store failing on every call this branch is always taken.  (2) If the
content read succeeds with non-empty content and the timestamp read
succeeds with a non-empty timestamp, 保存済み ({timestamp}) is shown
and the latch cleared.  (3) In every other non-error case (empty/absent
content, or failed or empty timestamp) the latch is cleared and the
generic 保存済み shown. -/
theorem loadFromStorage_contract (st : NotepadState) (store : Store)
    (ot : Option StorageError) (e : StorageError) :
    ((loadFromStorage st store (some e) ot).statusText = loadFailedMessage ∧
     (loadFromStorage st store (some e) ot).statusClass = "unsaved" ∧
     (loadFromStorage st store (some e) ot).storageWarningIssued = true ∧
     (loadFromStorage st store (some e) ot).content = st.content ∧
     (∀ ot', loadFromStorage st store (some e) ot =
        loadFromStorage st store (some e) ot')) ∧
    (∀ c t, storeGet store NOTEPAD_CONTENT_KEY = some c → c ≠ "" →
      storeGet store NOTEPAD_TIMESTAMP_KEY = some t → t ≠ "" →
      (loadFromStorage st store none none).statusText =
        "保存済み (" ++ t ++ ")" ∧
      (loadFromStorage st store none none).statusClass = "saved" ∧
      (loadFromStorage st store none none).storageWarningIssued = false ∧
      (loadFromStorage st store none none).content = c) ∧
    ((storeGet store NOTEPAD_CONTENT_KEY = none ∨
      storeGet store NOTEPAD_CONTENT_KEY = some "") →
      (loadFromStorage st store none ot).statusText = "保存済み" ∧
      (loadFromStorage st store none ot).statusClass = "saved" ∧
      (loadFromStorage st store none ot).storageWarningIssued = false ∧
      (loadFromStorage st store none ot).content = st.content) ∧
    (∀ c, storeGet store NOTEPAD_CONTENT_KEY = some c → c ≠ "" →
      (∀ e2,
        (loadFromStorage st store none (some e2)).statusText = "保存済み" ∧
        (loadFromStorage st store none (some e2)).statusClass = "saved" ∧
        (loadFromStorage st store none
          (some e2)).storageWarningIssued = false ∧
        (loadFromStorage st store none (some e2)).content = c) ∧
      ((storeGet store NOTEPAD_TIMESTAMP_KEY = none ∨
        storeGet store NOTEPAD_TIMESTAMP_KEY = some "") →
        (loadFromStorage st store none none).statusText = "保存済み" ∧
        (loadFromStorage st store none none).statusClass = "saved" ∧
        (loadFromStorage st store none none).storageWarningIssued = false ∧
        (loadFromStorage st store none none).content = c)) := by
  refine ⟨?_, ?_, ?_, ?_⟩
  · cases he : isStorageAccessError e <;>
      simp [loadFromStorage, safeGetItem, rawGetItem, notifyStorageIssue,
        updateSaveStatus, he]
  · intro c t hc hcne ht htne
    simp [loadFromStorage, safeGetItem, rawGetItem, jsTruthy, hc, hcne,
      ht, htne, clearStorageNotice, updateSaveStatus]
  · rintro (hc | hc) <;>
      simp [loadFromStorage, safeGetItem, rawGetItem, jsTruthy, hc,
        clearStorageNotice, updateSaveStatus]
  · intro c hc hcne
    constructor
    · intro e2
      cases he : isStorageAccessError e2 <;>
        simp [loadFromStorage, safeGetItem, rawGetItem, jsTruthy, hc,
          hcne, he, clearStorageNotice, updateSaveStatus]
    · rintro (ht | ht) <;>
        simp [loadFromStorage, safeGetItem, rawGetItem, jsTruthy, hc,
          hcne, ht, clearStorageNotice, updateSaveStatus]

/-- Witness for C6: against a store failing on every call, the load
ends in the forced degraded-notice state with the latch set; against a
store holding content and timestamp, the saved-at state with the latch
cleared. -/
theorem loadFromStorage_contract_witness :
    (loadFromStorage sampleState [] (some sampleError)
        none).statusText = loadFailedMessage ∧
    (loadFromStorage sampleState [] (some sampleError)
        none).storageWarningIssued = true ∧
    (loadFromStorage sampleState
        [(NOTEPAD_CONTENT_KEY, "hello"), (NOTEPAD_TIMESTAMP_KEY, "T1")]
        none none).statusText = "保存済み (T1)" ∧
    (loadFromStorage sampleState
        [(NOTEPAD_CONTENT_KEY, "hello"), (NOTEPAD_TIMESTAMP_KEY, "T1")]
        none none).storageWarningIssued = false :=
  ⟨(loadFromStorage_contract sampleState [] none sampleError).1.1,
   (loadFromStorage_contract sampleState [] none sampleError).1.2.2.1,
   ((loadFromStorage_contract sampleState
      [(NOTEPAD_CONTENT_KEY, "hello"), (NOTEPAD_TIMESTAMP_KEY, "T1")]
      none sampleError).2.1 "hello" "T1" (by decide) (by decide)
      (by decide) (by decide)).1,
   ((loadFromStorage_contract sampleState
      [(NOTEPAD_CONTENT_KEY, "hello"), (NOTEPAD_TIMESTAMP_KEY, "T1")]
      none sampleError).2.1 "hello" "T1" (by decide) (by decide)
      (by decide) (by decide)).2.2.1⟩

/-- C9.  `toggleTheme()`: from either starting theme, toggling twice
restores the displayed theme (whatever the storage outcomes), and after
a single toggle whose write succeeds the persisted theme equals the
displayed theme. -/
theorem toggleTheme_contract (st : NotepadState) (store : Store)
    (h : st.theme = "light" ∨ st.theme = "dark") :
    (∀ o1 o2,
      (toggleTheme (toggleTheme st store o1).1 (toggleTheme st store o1).2
        o2).1.theme = st.theme) ∧
    (storeGet (toggleTheme st store none).2 THEME_STORAGE_KEY =
      some (toggleTheme st store none).1.theme) := by
  rcases h with h | h <;>
    constructor <;>
      first
        | (intro o1 o2
           simp [toggleTheme, writeStoredTheme, safeSetItem, rawSetItem,
             updateThemeToggleLabel, h])
        | simp [toggleTheme, writeStoredTheme, safeSetItem, rawSetItem,
            updateThemeToggleLabel, h, storeGet_storeSet_self]

/-- Witness for C9 from the light theme: double toggle restores it and
the store holds the displayed theme after one toggle. -/
theorem toggleTheme_contract_witness :
    (toggleTheme (toggleTheme sampleState [] none).1
      (toggleTheme sampleState [] none).2 none).1.theme = "light" ∧
    storeGet (toggleTheme sampleState [] none).2 THEME_STORAGE_KEY =
      some (toggleTheme sampleState [] none).1.theme :=
  ⟨(toggleTheme_contract sampleState [] (Or.inl rfl)).1 none none,
   (toggleTheme_contract sampleState [] (Or.inl rfl)).2⟩

/-- C1 counterexample.  The claim fails on the code: with the latch set
and the degraded load-failure notice displayed, a content-change input
event — a non-forced status-worthy event, one of the claim's own
examples — replaces the displayed message with 未保存 even though no
successful storage operation has cleared the latch (the latch is still
set afterwards). -/
theorem degraded_notice_replaced_by_input :
    (onInput { sampleState with
        storageWarningIssued := true,
        statusText := loadFailedMessage }).statusText ≠ loadFailedMessage ∧
    (onInput { sampleState with
        storageWarningIssued := true,
        statusText := loadFailedMessage }).storageWarningIssued = true := by
  constructor
  · decide
  · rfl

/-- C1 amended.  While the latch is set, a non-forced *degraded notice*
(`notifyStorageIssue` with `forced = false`) does not replace the
displayed message or style and the latch stays set, and a forced notice
always installs its message; but the direct status updates — the
content-change input handler, the file-load completion, a confirmed
new-note and a confirmed clear — do replace the displayed message while
leaving the latch set. -/
theorem degraded_latch_discipline (st : NotepadState) (msg : String)
    (h : st.storageWarningIssued = true) :
    ((notifyStorageIssue st msg false).statusText = st.statusText ∧
     (notifyStorageIssue st msg false).statusClass = st.statusClass ∧
     (notifyStorageIssue st msg false).storageWarningIssued = true) ∧
    (notifyStorageIssue st msg true).statusText = msg ∧
    ((onInput st).statusText = "未保存" ∧
     (onInput st).storageWarningIssued = true) ∧
    (∀ text,
      (fileLoadComplete st text).statusText = "ファイル読み込み完了" ∧
      (fileLoadComplete st text).storageWarningIssued = true) ∧
    ((clearNote st true).statusText = "クリア済み" ∧
     (clearNote st true).storageWarningIssued = true) ∧
    (jsTrim st.content ≠ "" →
      (newNote st true).statusText = "新規メモ" ∧
      (newNote st true).storageWarningIssued = true) := by
  refine ⟨?_, ?_, ?_, ?_, ?_, ?_⟩ <;>
    simp [notifyStorageIssue, updateSaveStatus, onInput, updateCharCount,
      fileLoadComplete, clearNote, confirmDialog, newNote, h]
  intro hc
  simp [hc]

/-- Witness for C1's amended claim at a latch-set state with non-empty
content. -/
theorem degraded_latch_discipline_witness :
    (notifyStorageIssue { sampleState with storageWarningIssued := true }
        "other warning" false).statusText =
      ({ sampleState with storageWarningIssued := true } :
        NotepadState).statusText ∧
    (onInput { sampleState with
        storageWarningIssued := true }).storageWarningIssued = true :=
  ⟨(degraded_latch_discipline
      { sampleState with storageWarningIssued := true }
      "other warning" rfl).1.1,
   (degraded_latch_discipline
      { sampleState with storageWarningIssued := true }
      "other warning" rfl).2.2.1.2⟩

end Memotyou
